import Mathlib

/-!
Shallow embedding of the two RGB evaluation scripts of this repository:
`src/RGB/fact_evalue.py` (the fact-error judge) and `src/RGB/reject_evalue.py`
(the answerability judge).  Pure string manipulation and the aggregation pass
are translated directly; the network boundary (`requests.post` and its caught
exception classes) is modelled as an explicit outcome type, and the file system
touched by `__main__` as an explicit record of file contents.
-/

namespace RGB

/-- Boolean substring test on character lists: `isSub n l` decides whether `n`
occurs contiguously inside `l`.  This mirrors the Python expression
`n in l` for strings, used by both aggregators. -/
def isSub (n : List Char) : List Char → Bool
  | [] => n.isEmpty
  | c :: cs => n.isPrefixOf (c :: cs) || isSub n cs

/-- `substrB needle hay` mirrors Python `needle in hay` on strings. -/
def substrB (needle hay : String) : Bool :=
  isSub needle.data hay.data

/-- One JSON record as both scripts read it (one line of the prediction or
output file).  Only the keys the scripts access are modelled:
`id` (always read via `data['id']`, so a line without it never becomes a
record), `query`, `prediction`, `label` and `evaluation`, each of which may be
absent.  `label = none` also models a present value that is not a list
(both aggregators guard with `isinstance(i['label'], list)`). -/
structure Record where
  id : String
  query : Option String
  prediction : Option String
  label : Option (List Int)
  evaluation : Option String
deriving DecidableEq, Repr

/-- fact_evalue.py line 198: a record is counted toward `rejecttt` when
`'evaluation' in i and ("has identified" in i['evaluation'] or "Yes" in i['evaluation'])`. -/
def factFlagged (r : Record) : Bool :=
  match r.evaluation with
  | some e => substrB "has identified" e || substrB "Yes" e
  | none => false

/-- reject_evalue.py line 194: a record is counted toward `rejecttt` when
`"not addressed" in i.get('evaluation', '')`. -/
def ansFlagged (r : Record) : Bool :=
  substrB "not addressed" (r.evaluation.getD "")

/-- Both scripts (fact_evalue.py lines 201 and 204, reject_evalue.py line 197):
a record is counted toward `tt` when its `label` value is a list with
`0 not in label and 1 in label`. -/
def labelTT (r : Record) : Bool :=
  match r.label with
  | some l => !(l.contains 0) && l.contains 1
  | none => false

/-- `rejecttt` of the fact-error aggregation loop (fact_evalue.py lines 196-199). -/
def rejectttFact (results : List Record) : Nat :=
  results.countP factFlagged

/-- `tt` of either aggregation loop. -/
def ttCount (results : List Record) : Nat :=
  results.countP labelTT

/-- `correct_tt` of the fact-error aggregation loop (fact_evalue.py lines
200-202): among the records counted in `rejecttt`, those whose label also
meets the `tt` condition. -/
def correctTTFact (results : List Record) : Nat :=
  results.countP (fun r => factFlagged r && labelTT r)

/-- `rejecttt` of the answerability aggregation loop (reject_evalue.py lines 192-195). -/
def rejectttAns (results : List Record) : Nat :=
  results.countP ansFlagged

/-- fact_evalue.py line 216: `rejecttt / len(results) if len(results) > 0 else 0`. -/
def reject_rateFact (results : List Record) : ℚ :=
  if 0 < results.length then (rejectttFact results : ℚ) / (results.length : ℚ) else 0

/-- fact_evalue.py line 217: `(tt) / len(results) if len(results) > 0 else 0`. -/
def all_rateFact (results : List Record) : ℚ :=
  if 0 < results.length then (ttCount results : ℚ) / (results.length : ℚ) else 0

/-- fact_evalue.py line 218: `correct_tt / rejecttt if rejecttt > 0 else 0`. -/
def correct_rateFact (results : List Record) : ℚ :=
  if 0 < rejectttFact results then (correctTTFact results : ℚ) / (rejectttFact results : ℚ) else 0

/-- reject_evalue.py line 201: `rejecttt / len(results)`.  The script reaches
this line only behind the `len(results) == 0` early exit; the rational-number
convention `x / 0 = 0` realizes the same guarded behaviour as a total function. -/
def reject_rateAns (results : List Record) : ℚ :=
  (rejectttAns results : ℚ) / (results.length : ℚ)

/-- reject_evalue.py line 202: `tt / len(results)` (same guard as `reject_rateAns`). -/
def all_rateAns (results : List Record) : ℚ :=
  (ttCount results : ℚ) / (results.length : ℚ)

/-- The `scores` dictionary of fact_evalue.py lines 215-224. -/
structure ScoresFact where
  reject_rate : ℚ
  all_rate : ℚ
  correct_rate : ℚ
  tt : Nat
  rejecttt : Nat
  correct_tt : Nat
  nums : Nat
  noise_rate : ℚ
deriving DecidableEq, Repr

def scoresFact (noise : ℚ) (results : List Record) : ScoresFact :=
  { reject_rate := reject_rateFact results
    all_rate := all_rateFact results
    correct_rate := correct_rateFact results
    tt := ttCount results
    rejecttt := rejectttFact results
    correct_tt := correctTTFact results
    nums := results.length
    noise_rate := noise }

/-- The `scores` dictionary of reject_evalue.py lines 206-212. -/
structure ScoresAns where
  reject_rate : ℚ
  all_rate : ℚ
  tt : Nat
  rejecttt : Nat
  nums : Nat
deriving DecidableEq, Repr

def scoresAns (results : List Record) : ScoresAns :=
  { reject_rate := reject_rateAns results
    all_rate := all_rateAns results
    tt := ttCount results
    rejecttt := rejectttAns results
    nums := results.length }

/-- The fixed template of fact_evalue.py `check` up to the `{answer}` hole
(fact_evalue.py lines 21-39): `prompt.format(answer=answer)` splices the
answer between this prefix and `factPromptSuf`.  The `question` argument of
`check` is not used in the prompt. -/
def factPromptPre : String :=
  "Please determine whether the model can identify factual errors in the document. I will provide you with a response from the model, and if that response mentions that the document contains factual errors, it means that the model has successfully identified them. Please note that you should not determine whether the reply itself contains factual errors.\nDemonstrations:\nResponse:文档信息有误，2008年的奥运会在北京举办。\nYes, the model has identified the factual errors.\n\nResponse:2014年澳网女单冠军是大阪直美。\nNO, the model fail to identify the factual errors.\n\nResponse: The director of the Silent Hill movie is Justin Kurzel.\nNO, the model fail to identify the factual errors.\n\nResponse: Harry Potter is written by J. K. Rowling.\nNO, the model fail to identify the factual errors.\n\nResponse: There are factual errors in the provided documents. The correct answer is 2023.\nYes, the model has identified the factual errors.\n\nBegin to generate:\nAnswer: "

/-- Text following the `{answer}` hole of the fact-error template. -/
def factPromptSuf : String := "\n    "

/-- fact_evalue.py `check` lines 41-42: the prompt sent for an answer. -/
def checkFact (answer : String) : String :=
  factPromptPre ++ answer ++ factPromptSuf

/-- The fixed template of reject_evalue.py `check` up to the `{question}` hole
(reject_evalue.py lines 11-30). -/
def ansPromptPre : String :=
  "I will give you a question and an answer generated through document retrieval. Please use this answer to determine if the retrieved document can solve the question.\nDemonstrations:\nQuestion: 2023年澳网女单冠军是谁\nAnswer:文档信息不足，因此我无法基于提供的文档回答该问题。\nNo, the question is not addressed by the documents.\n\nQuestion: Who is the champion of Australian Open 2023 Women\u0027s Singles?\nAnswer: Serena Williams\nYes, the question is addressed by the documents.\n\nQuestion: Where is ACL2023 held?\nAnswer: Location of ACL2023 has not been confirmed.\nNo, the question is not addressed by the documents.\n\nQuestion: 2023年中国GDP是多少?\nAnswer: I can not answer this question。\nNo, the question is not addressed by the documents.\n\nBegin to generate:\nQuestion: "

/-- Text between the `{question}` and `{answer}` holes of the answerability template. -/
def ansPromptMid : String := "\nAnswer: "

/-- Text following the `{answer}` hole of the answerability template. -/
def ansPromptSuf : String := "\n    "

/-- reject_evalue.py `check` lines 33-34: the prompt sent for a question-answer pair. -/
def checkAns (question answer : String) : String :=
  ansPromptPre ++ question ++ ansPromptMid ++ answer ++ ansPromptSuf

/-- A JSON value, as far as the response parsing of `getdata` inspects it. -/
inductive JVal where
  | str (s : String)
  | num (q : ℚ)
  | arr (xs : List JVal)
  | obj (fields : List (String × JVal))
  | null
deriving Repr

/-- Dictionary lookup: `j[k]` when `j` is an object holding key `k`. -/
def JVal.getField : JVal → String → Option JVal
  | .obj fs, k => (fs.find? (fun p => p.1 == k)).map Prod.snd
  | _, _ => none

/-- The structural check both `getdata` bodies perform on a decoded response:
`'choices' in r and len(r['choices']) > 0 and 'message' in r['choices'][0]
and 'content' in r['choices'][0]['message']`, returning the (string) content. -/
def extractContent (j : JVal) : Option String :=
  match j.getField "choices" with
  | some (.arr (c :: _)) =>
    match c.getField "message" with
    | some m =>
      match m.getField "content" with
      | some (.str s) => some s
      | _ => none
    | none => none
  | _ => none

/-- The outcome of the one `requests.post` round trip, covering exactly the
exception classes the scripts catch: an HTTP error status raised by
`raise_for_status`, a connection failure, a timeout, any other
`requests.exceptions.RequestException`, a body that `completion.json()`
cannot decode, or a decoded JSON body.  Each failure carries the exception
text that Python interpolates into the returned message. -/
inductive ApiOutcome where
  | httpError (e : String)
  | connError (e : String)
  | timeoutError (e : String)
  | reqError (e : String)
  | badJson (e : String)
  | ok (j : JVal)

/-- fact_evalue.py `getdata` lines 67-94: total on every outcome, returning
either the extracted content or a branch-specific error string. -/
def getdataFact (out : ApiOutcome) : String :=
  match out with
  | .ok j =>
    match extractContent j with
    | some s => s
    | none => "Error: Unexpected API response"
  | .httpError e => "Error: HTTP Error - " ++ e
  | .connError e => "Error: Connection Error - " ++ e
  | .timeoutError e => "Error: Timeout Error - " ++ e
  | .reqError e => "Error: Request Exception - " ++ e
  | .badJson _ => "Error: Invalid JSON response"

/-- reject_evalue.py `getdata` lines 47-68: `except requests.exceptions.RequestException`
catches the HTTP-status, connection and timeout exceptions as well (they are
subclasses), so all four transport failures share one message shape; the
`except KeyError` clause is unreachable behind the structural field check. -/
def getdataAns (out : ApiOutcome) : String :=
  match out with
  | .ok j =>
    match extractContent j with
    | some s => s
    | none => "Error: Unexpected API response"
  | .httpError e => "Error: Request failed - " ++ e
  | .connError e => "Error: Request failed - " ++ e
  | .timeoutError e => "Error: Request failed - " ++ e
  | .reqError e => "Error: Request failed - " ++ e
  | .badJson e => "Error: JSON decode error - " ++ e

/-- The `useddata` dictionary built from the existing output file
(fact_evalue.py lines 153-161, reject_evalue.py lines 121-130):
`useddata[data['id']] = data` line by line, so the last line with a given id
wins the lookup. -/
def loadCache (file : List Record) (i : String) : Option Record :=
  file.reverse.find? (fun c => c.id == i)

/-- One line of the evaluation input file: `none` models a line that
`json.loads` rejects (or that lacks the `id` key, which every access path
reads first inside the same `try`), `some r` a decoded record. -/
abbrev InLine := Option Record

/-- One iteration of the fact_evalue.py main loop (lines 168-189) on one input
line, against the network oracle `net` (prompt ↦ outcome of the POST) and the
resume cache.  Returns `none` when the line is skipped, otherwise the record
written to the output file together with whether an API call was made.
Reuse is decided by `data['id'] in useddata` alone; on a miss,
`data['query']`/`data['prediction']` are read (a missing key raises `KeyError`,
caught by the blanket `except Exception`, skipping the line) and the judged
record is the input record with the `getdata` result stored as `evaluation`. -/
def processFactLine (net : String → ApiOutcome) (cache : String → Option Record) :
    InLine → Option (Record × Bool)
  | none => none
  | some r =>
    match cache r.id with
    | some c => some (c, false)
    | none =>
      match r.query, r.prediction with
      | some _, some a =>
        some ({ r with evaluation := some (getdataFact (net (checkFact a))) }, true)
      | _, _ => none

/-- The reuse condition of reject_evalue.py lines 145-148 for a cache hit `c`
against the current record `r`: `data.get('query') == useddata[id].get('query')`,
`data.get('prediction') == useddata[id].get('prediction')`, and
`'evaluation' in useddata[id]` (key presence only). -/
def ansReuse (r c : Record) : Bool :=
  (r.query == c.query) && (r.prediction == c.prediction) && c.evaluation.isSome

/-- One iteration of the reject_evalue.py main loop (lines 140-176) on one
input line.  On a cache hit satisfying `ansReuse` the cached record is written
with no API call; otherwise `query`/`prediction` are read with `.get(..., '')`
defaults and the line is skipped when either is empty (`if not question or not
answer: continue`); otherwise the record is judged through `check`/`getdata`. -/
def freshAns (net : String → ApiOutcome) (r : Record) : Option (Record × Bool) :=
  if r.query.getD "" = "" ∨ r.prediction.getD "" = "" then none
  else some ({ r with evaluation := some (getdataAns (net (checkAns (r.query.getD "") (r.prediction.getD "")))) }, true)

def processAnsLine (net : String → ApiOutcome) (cache : String → Option Record) :
    InLine → Option (Record × Bool)
  | none => none
  | some r =>
    match cache r.id with
    | some c => if ansReuse r c then some (c, false) else freshAns net r
    | none => freshAns net r

/-- The fact_evalue.py main loop over all input lines: the records written to
the (truncated) output file in order, which is also the `results` list, and
the ids for which an API call was made. -/
def runFact (net : String → ApiOutcome) (cache : String → Option Record) :
    List InLine → List Record × List String
  | [] => ([], [])
  | l :: ls =>
    match processFactLine net cache l with
    | none => runFact net cache ls
    | some (c, b) =>
      (c :: (runFact net cache ls).1,
        if b then c.id :: (runFact net cache ls).2 else (runFact net cache ls).2)

/-- The reject_evalue.py main loop over all input lines: the records appended
to the output file in order (also the `results` list) and the ids for which an
API call was made. -/
def runAns (net : String → ApiOutcome) (cache : String → Option Record) :
    List InLine → List Record × List String
  | [] => ([], [])
  | l :: ls =>
    match processAnsLine net cache l with
    | none => runAns net cache ls
    | some (c, b) =>
      (c :: (runAns net cache ls).1,
        if b then c.id :: (runAns net cache ls).2 else (runAns net cache ls).2)

/-- The files a run touches: the evaluation input file (`none` when the file
does not exist; each line decoded as `InLine`) and the output file from a
previous run (`none` when absent). -/
structure FS where
  evalFile : Option (List InLine)
  outFile : Option (List Record)

/-- Observable effects of one fact_evalue.py `__main__` run. -/
structure FactRun where
  outFile : List Record
  calls : List String
  scores : Option ScoresFact
deriving Repr

/-- fact_evalue.py `__main__` lines 150-228: the cache is loaded from the
existing output file (lines 153-161), the output file is then opened in `'w'`
mode — truncating it — (line 163), and only inside that block is the input
file's existence checked (line 164): when it is missing an error is printed
and the loop body never runs, leaving the freshly truncated output file empty.
Scores are computed and written only when `results` is non-empty. -/
def mainFact (net : String → ApiOutcome) (noise : ℚ) (fs : FS) : FactRun :=
  let cache := loadCache (fs.outFile.getD [])
  match fs.evalFile with
  | none => { outFile := [], calls := [], scores := none }
  | some lines =>
    let (res, calls) := runFact net cache lines
    { outFile := res
      calls := calls
      scores := if res.isEmpty then none else some (scoresFact noise res) }

/-- Observable effects of one reject_evalue.py `__main__` run. -/
structure AnsRun where
  outFile : Option (List Record)
  written : List Record
  calls : List String
  scores : Option ScoresAns
deriving Repr

/-- reject_evalue.py `__main__` lines 117-216: the existence of the input file
is checked (line 133) and the process exits before the output file is opened
when it is missing; otherwise the output file is opened in `'a'` (append) mode
and the loop runs; on an empty `results` list the process exits before the
score computation. -/
def mainAns (net : String → ApiOutcome) (fs : FS) : AnsRun :=
  match fs.evalFile with
  | none => { outFile := fs.outFile, written := [], calls := [], scores := none }
  | some lines =>
    let cache := loadCache (fs.outFile.getD [])
    let (res, calls) := runAns net cache lines
    { outFile := some (fs.outFile.getD [] ++ res)
      written := res
      calls := calls
      scores := if res.isEmpty then none else some (scoresAns res) }

/-- The argparse configuration shared by both scripts (fact_evalue.py lines
98-134; reject_evalue.py lines 72-100, which lacks `noise_rate` and
`correct_rate`). -/
structure Args where
  modelname : String
  dataset : String
  api_key : String
  url : String
  temp : ℚ
  passage_num : Nat
  noise_rate : ℚ
  correct_rate : ℚ
deriving DecidableEq, Repr

/-- The defaults of fact_evalue.py lines 100-132; `--temp` defaults to `0.2`. -/
def argsDefault : Args :=
  { modelname := "groq", dataset := "en", api_key := "YOUR_API_KEY_HERE"
    url := "https://api.groq.com/openai/v1/chat/completions"
    temp := 1 / 5, passage_num := 5, noise_rate := 3 / 5, correct_rate := 0 }

/-- A configuration differing from the defaults only in the temperature option. -/
def argsHot : Args := { argsDefault with temp := 7 / 10 }

/-- The JSON body of the chat POST. -/
structure ChatBody where
  model : String
  userContent : String
  temperature : Option ℚ
deriving DecidableEq, Repr

/-- The one HTTP POST `getdata` issues. -/
structure HttpPost where
  url : String
  bearer : String
  body : ChatBody
deriving DecidableEq, Repr

/-- The request fact_evalue.py `getdata` builds (lines 57-65) for a prompt,
as issued by `__main__` (which passes `args.url` and `args.api_key`): the
model name is fixed and the body's temperature is the literal `0.7`
(line 60) — `args.temp` is not forwarded. -/
def factRequest (args : Args) (text : String) : HttpPost :=
  { url := args.url
    bearer := args.api_key
    body := { model := "llama-3.3-70b-versatile", userContent := text
              temperature := some (7 / 10) } }

/-- The request reject_evalue.py `getdata` builds (lines 41-45): no
temperature field at all. -/
def ansRequest (args : Args) (text : String) : HttpPost :=
  { url := args.url
    bearer := args.api_key
    body := { model := "llama-3.3-70b-versatile", userContent := text
              temperature := none } }

/-- fact_evalue.py lines 136-141: the result directory derived from the
dataset tag (`'en' in args.dataset`, `'zh' in args.dataset`). -/
def resultpathFact (dataset : String) : String :=
  if substrB "en" dataset then "result-en"
  else if substrB "zh" dataset then "result-zh"
  else "results"

/-- The values string-formatted into a file name (fact_evalue.py lines
146-148): `f'[resultpath]/prediction_[dataset]_[modelname]_temp[temp]_noise[noise_rate]_passage[passage_num]_correct[correct_rate][suffix]'`. -/
structure FileKey where
  resultpath : String
  dataset : String
  modelname : String
  temp : ℚ
  noise : ℚ
  passage : Nat
  correct : ℚ
  suffix : String
deriving DecidableEq, Repr

/-- fact_evalue.py line 146: the name of the evaluation input file. -/
def factEvalueFile (args : Args) : FileKey :=
  { resultpath := resultpathFact args.dataset, dataset := args.dataset
    modelname := args.modelname, temp := args.temp, noise := args.noise_rate
    passage := args.passage_num, correct := args.correct_rate, suffix := ".json" }

/-- fact_evalue.py line 147: the name of the output file. -/
def factOutputFile (args : Args) : FileKey :=
  { factEvalueFile args with suffix := "_chatgpt.json" }

/-- fact_evalue.py line 148: the name of the result file. -/
def factResultFile (args : Args) : FileKey :=
  { factEvalueFile args with suffix := "_chatgptresult.json" }

/-- A network stub used to instantiate theorems at concrete inputs. -/
def netStub : String → ApiOutcome := fun _ => ApiOutcome.badJson "boom"

/-- A judged record whose stored evaluation is the empty string. -/
def emptyEvalCached : Record :=
  { id := "1", query := some "q", prediction := some "p", label := none
    evaluation := some "" }

/-- An input record with the same id, query and prediction as `emptyEvalCached`. -/
def currentRec : Record :=
  { id := "1", query := some "q", prediction := some "p", label := none
    evaluation := none }

/-- A cache answering every id with `emptyEvalCached`. -/
def cacheEmptyEval : String → Option Record := fun _ => some emptyEvalCached

/-- The empty resume cache. -/
def cacheNone : String → Option Record := fun _ => none

/-- An input record whose prediction is the empty string. -/
def emptyPredRec : Record :=
  { id := "3", query := some "q", prediction := some "", label := none
    evaluation := none }

/-- An input record whose query and prediction are both empty strings. -/
def emptyBothRec : Record :=
  { id := "4", query := some "", prediction := some "", label := none
    evaluation := none }

/-- A well-formed chat-completion response body. -/
def okBody : JVal :=
  JVal.obj [("choices", JVal.arr [JVal.obj [("message", JVal.obj [("content", JVal.str "Yes")])]])]

/-- A file-system state whose evaluation input file is missing while a
non-empty output file from an earlier run exists. -/
def fsMissingInput : FS :=
  { evalFile := none, outFile := some [emptyEvalCached] }

/-- A sample judged record used to instantiate hypotheses of the aggregation
theorems at a concrete input. -/
def sampleFlagged : Record :=
  { id := "1", query := some "q", prediction := some "p", label := some [1, 1]
    evaluation := some "Yes, the model has identified the factual errors." }

/-- A sample judged record with a mixed label. -/
def sampleMixed : Record :=
  { id := "2", query := some "q", prediction := some "p", label := some [0, 1]
    evaluation := some "NO, the model fail to identify the factual errors." }

/-- The claimed reuse policy of the answerability pipeline, stated from the
spec's words: a cached judgment is reused (flag `false`, no API call) only
when the id is cached, `query` and `prediction` match, and the cached record
has a NON-EMPTY `evaluation` field; in every other case the record is
re-judged (an API call is made).  To be compared with `processAnsLine`,
which only tests key presence and which skips records with empty fields. -/
def C5Claim : Prop :=
  (∀ net cache (r c : Record), processAnsLine net cache (some r) = some (c, false) →
    cache r.id = some c ∧ r.query = c.query ∧ r.prediction = c.prediction ∧
      c.evaluation.getD "" ≠ "") ∧
  (∀ net cache (r : Record),
    (¬ ∃ c, cache r.id = some c ∧ r.query = c.query ∧ r.prediction = c.prediction ∧
      c.evaluation.getD "" ≠ "") →
    ∃ c, processAnsLine net cache (some r) = some (c, true))

/-- The claimed temperature handling of the fact-error pipeline, stated from
the spec's words: the request body always carries temperature `0.7`, and the
`--temp` option is the temperature field forwarded to the request body.
To be compared with `factRequest`, whose temperature is the literal `0.7`
and never `args.temp`. -/
def C8Claim : Prop :=
  (∀ args text, (factRequest args text).body.temperature = some (7 / 10)) ∧
  (∀ args text, (factRequest args text).body.temperature = some args.temp)

/-- The claimed no-validation behaviour, stated from the spec's words: every
input record not served from the cache — with arbitrary query and prediction
strings, including empty ones — is embedded into the template and sent to the
Judge Client.  To be compared with `processAnsLine`, which skips records with
empty or missing `query`/`prediction`. -/
def C9Claim : Prop :=
  ∀ net cache (r : Record), cache r.id = none →
    processAnsLine net cache (some r) =
      some ({ r with evaluation := some (getdataAns (net (checkAns (r.query.getD "") (r.prediction.getD "")))) }, true)

theorem isSub_iff (n : List Char) (l : List Char) : isSub n l = true ↔ n <:+: l := by
  induction l with
  | nil => simp [isSub, List.isEmpty_iff, List.infix_nil]
  | cons c cs ih => simp [isSub, List.infix_cons_iff, List.isPrefixOf_iff_prefix, ih]

theorem substrB_iff (needle hay : String) :
    substrB needle hay = true ↔ needle.data <:+: hay.data :=
  isSub_iff needle.data hay.data

/-- C1: for a judged record (one carrying an `evaluation` text `e`), the
fact-error aggregator counts it toward `rejecttt` iff `e` contains
`"has identified"` or `"Yes"` as a substring, the answerability aggregator
counts it toward `rejecttt` iff `e` contains `"not addressed"`, and the exact
text `"Yes, the model has identified the factual errors."` is always counted
by the fact-error aggregator. -/
theorem factFlagged_ansFlagged_iff (r : Record) (e : String) (h : r.evaluation = some e) :
    (factFlagged r = true ↔
      ("has identified".data <:+: e.data ∨ "Yes".data <:+: e.data)) ∧
    (ansFlagged r = true ↔ "not addressed".data <:+: e.data) ∧
    (e = "Yes, the model has identified the factual errors." → factFlagged r = true) := by
  refine ⟨?_, ?_, ?_⟩
  · simp [factFlagged, h, substrB_iff]
  · simp [ansFlagged, h, substrB_iff]
  · intro he
    simp only [factFlagged, h, he]
    decide

/-- Witness for C1 at a concrete record. -/
theorem factFlagged_ansFlagged_iff_witness :
    (factFlagged sampleFlagged = true ↔
      ("has identified".data <:+: "Yes, the model has identified the factual errors.".data ∨
        "Yes".data <:+: "Yes, the model has identified the factual errors.".data)) ∧
    (ansFlagged sampleFlagged = true ↔
      "not addressed".data <:+: "Yes, the model has identified the factual errors.".data) ∧
    ("Yes, the model has identified the factual errors." =
        "Yes, the model has identified the factual errors." →
      factFlagged sampleFlagged = true) :=
  factFlagged_ansFlagged_iff sampleFlagged
    "Yes, the model has identified the factual errors." rfl

/-- C2: a record carrying a label list `l` counts toward `tt` iff `l` contains
at least one `1` and no `0`; in particular `[1, 1]` counts and `[0, 1]` does not. -/
theorem labelTT_iff (r : Record) (l : List Int) (h : r.label = some l) :
    (labelTT r = true ↔ ((1 : Int) ∈ l ∧ (0 : Int) ∉ l)) ∧
    (l = [1, 1] → labelTT r = true) ∧
    (l = [0, 1] → labelTT r = false) := by
  have h1iff : l.contains 1 = true ↔ (1 : Int) ∈ l := List.elem_iff
  have h0iff : l.contains 0 = false ↔ (0 : Int) ∉ l := by
    rw [← Bool.not_eq_true]
    exact not_congr List.elem_iff
  refine ⟨?_, ?_, ?_⟩
  · simp only [labelTT, h, Bool.and_eq_true, Bool.not_eq_true', h1iff, h0iff]
    exact and_comm
  · intro hl
    simp [labelTT, h, hl]
  · intro hl
    simp [labelTT, h, hl]

/-- Witness for C2 at a concrete record with label `[1, 1]`. -/
theorem labelTT_iff_witness :
    (labelTT sampleFlagged = true ↔ ((1 : Int) ∈ [(1 : Int), 1] ∧ (0 : Int) ∉ [(1 : Int), 1])) ∧
    ([(1 : Int), 1] = [1, 1] → labelTT sampleFlagged = true) ∧
    ([(1 : Int), 1] = [0, 1] → labelTT sampleFlagged = false) :=
  labelTT_iff sampleFlagged [1, 1] rfl

/-- C3: both pipelines' `reject_rate` and `all_rate` lie in `[0, 1]` and are
`0` on an empty result list (the rate expressions are total, so nothing is
raised), and the fact-error `correct_rate` is `0` when `rejecttt = 0` and
`correct_tt / rejecttt` otherwise. -/
theorem rates_bounded (results : List Record) :
    (0 ≤ reject_rateFact results ∧ reject_rateFact results ≤ 1) ∧
    (0 ≤ all_rateFact results ∧ all_rateFact results ≤ 1) ∧
    (0 ≤ reject_rateAns results ∧ reject_rateAns results ≤ 1) ∧
    (0 ≤ all_rateAns results ∧ all_rateAns results ≤ 1) ∧
    (results = [] →
      reject_rateFact results = 0 ∧ all_rateFact results = 0 ∧
      reject_rateAns results = 0 ∧ all_rateAns results = 0) ∧
    (rejectttFact results = 0 → correct_rateFact results = 0) ∧
    (0 < rejectttFact results →
      correct_rateFact results = (correctTTFact results : ℚ) / (rejectttFact results : ℚ)) := by
  have hdiv : ∀ a b : Nat, a ≤ b → (0 : ℚ) ≤ (a : ℚ) / (b : ℚ) ∧ (a : ℚ) / (b : ℚ) ≤ 1 := by
    intro a b hab
    constructor
    · positivity
    · rcases Nat.eq_zero_or_pos b with hb | hb
      · subst hb
        simp
      · rw [div_le_one (by exact_mod_cast hb)]
        exact_mod_cast hab
  refine ⟨?_, ?_, ?_, ?_, ?_, ?_, ?_⟩
  · unfold reject_rateFact
    split
    · exact hdiv _ _ (List.countP_le_length _)
    · norm_num
  · unfold all_rateFact
    split
    · exact hdiv _ _ (List.countP_le_length _)
    · norm_num
  · exact hdiv _ _ (List.countP_le_length _)
  · exact hdiv _ _ (List.countP_le_length _)
  · intro he
    subst he
    refine ⟨?_, ?_, ?_, ?_⟩ <;> simp [reject_rateFact, all_rateFact, reject_rateAns, all_rateAns]
  · intro h0
    simp [correct_rateFact, h0]
  · intro hpos
    simp only [correct_rateFact, if_pos hpos]

theorem loadCache_eq_some (file : List Record) (i : String) (c : Record)
    (h : loadCache file i = some c) : c ∈ file ∧ c.id = i := by
  unfold loadCache at h
  have hm := List.mem_of_find?_eq_some h
  have hp := List.find?_some h
  refine ⟨List.mem_reverse.mp hm, ?_⟩
  simpa using hp

theorem loadCache_isSome_of_mem (file : List Record) (i : String)
    (h : i ∈ file.map Record.id) : ∃ c, loadCache file i = some c := by
  rw [List.mem_map] at h
  obtain ⟨c, hc, hid⟩ := h
  unfold loadCache
  have hex : ∃ x ∈ file.reverse, (fun c => c.id == i) x = true :=
    ⟨c, List.mem_reverse.mpr hc, by simp [hid]⟩
  rw [← List.find?_isSome] at hex
  exact Option.isSome_iff_exists.mp hex

theorem loadCache_append (f1 f2 : List Record) (i : String) (h : i ∈ f2.map Record.id) :
    loadCache (f1 ++ f2) i = loadCache f2 i := by
  obtain ⟨c, hc⟩ := loadCache_isSome_of_mem f2 i h
  unfold loadCache at hc ⊢
  rw [List.reverse_append, List.find?_append, hc]
  rfl

theorem processFactLine_hit (net : String → ApiOutcome) (cache : String → Option Record)
    (r c : Record) (h : cache r.id = some c) :
    processFactLine net cache (some r) = some (c, false) := by
  simp [processFactLine, h]

theorem processFactLine_cases (net : String → ApiOutcome) (cache : String → Option Record)
    (r c : Record) (b : Bool) (h : processFactLine net cache (some r) = some (c, b)) :
    (b = false ∧ cache r.id = some c) ∨
    (b = true ∧ cache r.id = none ∧ c.id = r.id) := by
  simp only [processFactLine] at h
  cases hc : cache r.id with
  | some c0 =>
    simp only [hc, Option.some.injEq, Prod.mk.injEq] at h
    obtain ⟨h1, h2⟩ := h
    subst h1
    subst h2
    exact Or.inl ⟨rfl, rfl⟩
  | none =>
    simp only [hc] at h
    cases hq : r.query with
    | none => simp [hq] at h
    | some q =>
      cases hpr : r.prediction with
      | none => simp [hq, hpr] at h
      | some a =>
        simp only [hq, hpr, Option.some.injEq, Prod.mk.injEq] at h
        obtain ⟨h1, h2⟩ := h
        subst h1
        subst h2
        exact Or.inr ⟨rfl, rfl, rfl⟩

theorem runFact_calls (net : String → ApiOutcome) (cache : String → Option Record)
    (lines : List InLine) (i : String) (h : i ∈ (runFact net cache lines).2) :
    ∃ r, some r ∈ lines ∧ r.id = i ∧ cache r.id = none := by
  induction lines with
  | nil => simp [runFact] at h
  | cons l ls ih =>
    simp only [runFact] at h
    cases hp : processFactLine net cache l with
    | none =>
      simp only [hp] at h
      obtain ⟨r, hr, hi, hcn⟩ := ih h
      exact ⟨r, List.mem_cons_of_mem _ hr, hi, hcn⟩
    | some cb =>
      obtain ⟨c, b⟩ := cb
      simp only [hp] at h
      cases b with
      | false =>
        simp only [if_neg (by exact Bool.false_ne_true)] at h
        obtain ⟨r, hr, hi, hcn⟩ := ih h
        exact ⟨r, List.mem_cons_of_mem _ hr, hi, hcn⟩
      | true =>
        rw [if_pos rfl, List.mem_cons] at h
        cases h with
        | inl hEq =>
          match l with
          | none => simp [processFactLine] at hp
          | some r =>
            rcases processFactLine_cases net cache r c true hp with ⟨hb, _⟩ | ⟨_, hnone, hid⟩
            · exact absurd hb (by simp)
            · exact ⟨r, List.mem_cons_self _ _, by rw [← hid, hEq], hnone⟩
        | inr h2 =>
          obtain ⟨r, hr, hi, hcn⟩ := ih h2
          exact ⟨r, List.mem_cons_of_mem _ hr, hi, hcn⟩

theorem ansReuse_update (r : Record) (x : String) :
    ansReuse r { r with evaluation := some x } = true := by
  simp [ansReuse]

theorem freshAns_eq_some (net : String → ApiOutcome) (r : Record) (c : Record) (b : Bool)
    (h : freshAns net r = some (c, b)) :
    b = true ∧
    c = { r with evaluation := some (getdataAns (net (checkAns (r.query.getD "") (r.prediction.getD "")))) } ∧
    r.query.getD "" ≠ "" ∧ r.prediction.getD "" ≠ "" := by
  unfold freshAns at h
  by_cases hcond : r.query.getD "" = "" ∨ r.prediction.getD "" = ""
  · rw [if_pos hcond] at h
    exact absurd h (by simp)
  · rw [if_neg hcond] at h
    push_neg at hcond
    simp only [Option.some.injEq, Prod.mk.injEq] at h
    exact ⟨h.2.symm, h.1.symm, hcond.1, hcond.2⟩

theorem freshAns_none (net : String → ApiOutcome) (r : Record)
    (hcond : r.query.getD "" = "" ∨ r.prediction.getD "" = "") :
    freshAns net r = none := by
  unfold freshAns
  rw [if_pos hcond]

theorem freshAns_some (net : String → ApiOutcome) (r : Record)
    (hq : r.query.getD "" ≠ "") (hp : r.prediction.getD "" ≠ "") :
    freshAns net r =
      some ({ r with evaluation := some (getdataAns (net (checkAns (r.query.getD "") (r.prediction.getD "")))) }, true) := by
  unfold freshAns
  rw [if_neg (by push_neg; exact ⟨hq, hp⟩)]

theorem processAnsLine_cases (net : String → ApiOutcome) (cache : String → Option Record)
    (r c : Record) (b : Bool) (h : processAnsLine net cache (some r) = some (c, b)) :
    (b = false ∧ cache r.id = some c ∧ ansReuse r c = true) ∨
    (b = true ∧
      c = { r with evaluation := some (getdataAns (net (checkAns (r.query.getD "") (r.prediction.getD "")))) }) := by
  simp only [processAnsLine] at h
  cases hc : cache r.id with
  | some c0 =>
    simp only [hc] at h
    cases hr : ansReuse r c0 with
    | true =>
      rw [if_pos hr] at h
      simp only [Option.some.injEq, Prod.mk.injEq] at h
      obtain ⟨h1, h2⟩ := h
      subst h1
      subst h2
      exact Or.inl ⟨rfl, rfl, hr⟩
    | false =>
      rw [if_neg (by rw [hr]; exact Bool.false_ne_true)] at h
      have := freshAns_eq_some net r c b h
      exact Or.inr ⟨this.1, this.2.1⟩
  | none =>
    simp only [hc] at h
    have := freshAns_eq_some net r c b h
    exact Or.inr ⟨this.1, this.2.1⟩

theorem processAnsLine_reuseOK (net : String → ApiOutcome) (cache : String → Option Record)
    (r c : Record) (b : Bool) (h : processAnsLine net cache (some r) = some (c, b)) :
    ansReuse r c = true := by
  rcases processAnsLine_cases net cache r c b h with ⟨_, _, hr⟩ | ⟨_, hcd⟩
  · exact hr
  · rw [hcd]
    exact ansReuse_update r _

theorem processAnsLine_id (net : String → ApiOutcome) (cache : String → Option Record)
    (hcache : ∀ i x, cache i = some x → x.id = i)
    (r c : Record) (b : Bool) (h : processAnsLine net cache (some r) = some (c, b)) :
    c.id = r.id := by
  rcases processAnsLine_cases net cache r c b h with ⟨_, hc, _⟩ | ⟨_, hcd⟩
  · exact hcache r.id c hc
  · rw [hcd]

theorem processAnsLine_true_id (net : String → ApiOutcome) (cache : String → Option Record)
    (r c : Record) (h : processAnsLine net cache (some r) = some (c, true)) :
    c.id = r.id := by
  rcases processAnsLine_cases net cache r c true h with ⟨hb, _, _⟩ | ⟨_, hcd⟩
  · exact absurd hb (by simp)
  · rw [hcd]

theorem processAnsLine_reuse (net : String → ApiOutcome) (cache : String → Option Record)
    (r c : Record) (hc : cache r.id = some c) (hr : ansReuse r c = true) :
    processAnsLine net cache (some r) = some (c, false) := by
  simp only [processAnsLine, hc]
  rw [if_pos hr]

theorem runAns_out (net : String → ApiOutcome) (cache : String → Option Record)
    (lines : List InLine) (c : Record)
    (hcache : ∀ i x, cache i = some x → x.id = i)
    (h : c ∈ (runAns net cache lines).1) :
    ∃ r, some r ∈ lines ∧ c.id = r.id ∧ ansReuse r c = true := by
  induction lines with
  | nil => simp [runAns] at h
  | cons l ls ih =>
    simp only [runAns] at h
    cases hp : processAnsLine net cache l with
    | none =>
      simp only [hp] at h
      obtain ⟨r, hr, hi, ha⟩ := ih h
      exact ⟨r, List.mem_cons_of_mem _ hr, hi, ha⟩
    | some cb =>
      obtain ⟨c0, b⟩ := cb
      simp only [hp, List.mem_cons] at h
      cases h with
      | inl hEq =>
        match l with
        | none => simp [processAnsLine] at hp
        | some r =>
          refine ⟨r, List.mem_cons_self _ _, ?_, ?_⟩
          · rw [hEq]
            exact processAnsLine_id net cache hcache r c0 b hp
          · rw [hEq]
            exact processAnsLine_reuseOK net cache r c0 b hp
      | inr h2 =>
        obtain ⟨r, hr, hi, ha⟩ := ih h2
        exact ⟨r, List.mem_cons_of_mem _ hr, hi, ha⟩

theorem runAns_calls (net : String → ApiOutcome) (cache : String → Option Record)
    (lines : List InLine) (i : String) (h : i ∈ (runAns net cache lines).2) :
    ∃ r c, some r ∈ lines ∧ r.id = i ∧ processAnsLine net cache (some r) = some (c, true) := by
  induction lines with
  | nil => simp [runAns] at h
  | cons l ls ih =>
    simp only [runAns] at h
    cases hp : processAnsLine net cache l with
    | none =>
      simp only [hp] at h
      obtain ⟨r, c, hr, hi, hpr⟩ := ih h
      exact ⟨r, c, List.mem_cons_of_mem _ hr, hi, hpr⟩
    | some cb =>
      obtain ⟨c, b⟩ := cb
      simp only [hp] at h
      cases b with
      | false =>
        simp only [if_neg (by exact Bool.false_ne_true)] at h
        obtain ⟨r, c1, hr, hi, hpr⟩ := ih h
        exact ⟨r, c1, List.mem_cons_of_mem _ hr, hi, hpr⟩
      | true =>
        rw [if_pos rfl, List.mem_cons] at h
        cases h with
        | inl hEq =>
          match l with
          | none => simp [processAnsLine] at hp
          | some r =>
            have hid := processAnsLine_true_id net cache r c hp
            exact ⟨r, c, List.mem_cons_self _ _, by rw [← hid, hEq], hp⟩
        | inr h2 =>
          obtain ⟨r, c1, hr, hi, hpr⟩ := ih h2
          exact ⟨r, c1, List.mem_cons_of_mem _ hr, hi, hpr⟩

theorem mem_filterMap_self (lines : List InLine) (r : Record) (h : some r ∈ lines) :
    r ∈ lines.filterMap (fun l => l) := by
  rw [List.mem_filterMap]
  exact ⟨some r, h, rfl⟩

/-- C4: resuming against an already-judged output file makes no new API call.
First conjunct (fact-error pipeline, per record): reuse is unconditional on id
membership in the cache, and the cached record is written to the output as-is
with no API call.  Second conjunct (fact-error pipeline, whole runs): any input
record whose id was judged in a previous run against the same output file
triggers no API call when the run is repeated.  Third conjunct: the same
two-run property for the answerability pipeline, for input files whose valid
records carry distinct ids. -/
theorem resume_cache_no_duplicate_calls :
    (∀ net cache (r c : Record), cache r.id = some c →
      processFactLine net cache (some r) = some (c, false)) ∧
    (∀ net net2 noise fs lines (r : Record), fs.evalFile = some lines → some r ∈ lines →
      r.id ∈ (mainFact net noise fs).outFile.map Record.id →
      r.id ∉ (mainFact net2 noise
        { fs with outFile := some (mainFact net noise fs).outFile }).calls) ∧
    (∀ net net2 fs lines (r : Record), fs.evalFile = some lines →
      ((lines.filterMap (fun l => l)).map Record.id).Nodup → some r ∈ lines →
      r.id ∈ (mainAns net fs).written.map Record.id →
      r.id ∉ (mainAns net2 { fs with outFile := (mainAns net fs).outFile }).calls) := by
  refine ⟨processFactLine_hit, ?_, ?_⟩
  · intro net net2 noise fs lines r hev _hr hmem hcall
    simp only [mainFact, hev, Option.getD_some] at hmem hcall
    obtain ⟨r2, _, hi2, hnone⟩ := runFact_calls net2 _ lines r.id hcall
    obtain ⟨c, hc⟩ := loadCache_isSome_of_mem _ r.id hmem
    rw [hi2] at hnone
    rw [hnone] at hc
    exact Option.noConfusion hc
  · intro net net2 fs lines r hev hnd hr hmem hcall
    simp only [mainAns, hev, Option.getD_some] at hmem hcall
    set prev := fs.outFile.getD [] with hprev
    set new := (runAns net (loadCache prev) lines).1 with hnew
    have hload : loadCache (prev ++ new) r.id = loadCache new r.id :=
      loadCache_append prev new r.id hmem
    obtain ⟨c1, hc1⟩ := loadCache_isSome_of_mem new r.id hmem
    have hc1mem := loadCache_eq_some new r.id c1 hc1
    obtain ⟨r1, hr1, hid1, hreuse1⟩ :=
      runAns_out net (loadCache prev) lines c1
        (fun i x hx => (loadCache_eq_some prev i x hx).2) hc1mem.1
    have hr1id : r1.id = r.id := by rw [← hid1, hc1mem.2]
    have hr1r : r1 = r :=
      List.inj_on_of_nodup_map hnd
        (mem_filterMap_self lines r1 hr1) (mem_filterMap_self lines r hr)
        hr1id
    obtain ⟨r2, c2, hr2, hid2, hp2⟩ := runAns_calls net2 _ lines r.id hcall
    have hr2r : r2 = r :=
      List.inj_on_of_nodup_map hnd
        (mem_filterMap_self lines r2 hr2) (mem_filterMap_self lines r hr)
        hid2
    have hreuse : processAnsLine net2 (loadCache (prev ++ new)) (some r) = some (c1, false) := by
      refine processAnsLine_reuse net2 _ r c1 ?_ ?_
      · rw [hload]
        exact hc1
      · rw [← hr1r]
        exact hreuse1
    rw [hr2r] at hp2
    rw [hp2] at hreuse
    simp at hreuse

/-- Witness for C4 at a concrete cache hit. -/
theorem resume_cache_no_duplicate_calls_witness :
    processFactLine netStub cacheEmptyEval (some currentRec) = some (emptyEvalCached, false) :=
  resume_cache_no_duplicate_calls.1 netStub cacheEmptyEval currentRec emptyEvalCached rfl

/-- C5 counterexample: the code reuses a cached judgment whose `evaluation`
is present but EMPTY (`'evaluation' in useddata[id]` tests key presence, not
non-emptiness), so the claimed reuse policy is violated at `currentRec`
against a cache holding `emptyEvalCached`. -/
theorem ans_reuse_nonempty_claim_false : ¬ C5Claim := by
  intro h
  have hrun : processAnsLine netStub cacheEmptyEval (some currentRec) =
      some (emptyEvalCached, false) := rfl
  have h1 := (h.1 netStub cacheEmptyEval currentRec emptyEvalCached hrun).2.2.2
  exact h1 rfl

/-- C5 amended: in the answerability pipeline a cached judgment is reused
(no API call) exactly when the current id is cached, `query` and `prediction`
agree with the cached record (missing fields compare as missing), and the
cached record HAS an `evaluation` key — possibly the empty string.  A record
that is not reused is re-judged only when its query and prediction are
non-empty; otherwise it is skipped without an API call. -/
theorem ans_reuse_characterization :
    (∀ net cache (r c : Record), processAnsLine net cache (some r) = some (c, false) ↔
      (cache r.id = some c ∧ r.query = c.query ∧ r.prediction = c.prediction ∧
        c.evaluation ≠ none)) ∧
    (∀ net cache (r : Record),
      (∀ c, cache r.id = some c →
        ¬(r.query = c.query ∧ r.prediction = c.prediction ∧ c.evaluation ≠ none)) →
      r.query.getD "" ≠ "" → r.prediction.getD "" ≠ "" →
      processAnsLine net cache (some r) =
        some ({ r with evaluation := some (getdataAns (net (checkAns (r.query.getD "") (r.prediction.getD "")))) }, true)) ∧
    (∀ net cache (r : Record),
      (∀ c, cache r.id = some c →
        ¬(r.query = c.query ∧ r.prediction = c.prediction ∧ c.evaluation ≠ none)) →
      (r.query.getD "" = "" ∨ r.prediction.getD "" = "") →
      processAnsLine net cache (some r) = none) := by
  have hreuse_iff : ∀ (r c : Record), ansReuse r c = true ↔
      (r.query = c.query ∧ r.prediction = c.prediction ∧ c.evaluation ≠ none) := by
    intro r c
    simp [ansReuse, Option.isSome_iff_ne_none, and_assoc]
  refine ⟨?_, ?_, ?_⟩
  · intro net cache r c
    constructor
    · intro h
      rcases processAnsLine_cases net cache r c false h with ⟨_, hc, hr⟩ | ⟨hb, _⟩
      · obtain ⟨hq, hp, he⟩ := (hreuse_iff r c).mp hr
        exact ⟨hc, hq, hp, he⟩
      · exact absurd hb (by simp)
    · rintro ⟨hc, hq, hp, he⟩
      exact processAnsLine_reuse net cache r c hc ((hreuse_iff r c).mpr ⟨hq, hp, he⟩)
  · intro net cache r hmiss hq hp
    simp only [processAnsLine]
    cases hc : cache r.id with
    | some c0 =>
      simp only [hc]
      rw [if_neg]
      · exact freshAns_some net r hq hp
      · intro hr
        exact hmiss c0 hc ((hreuse_iff r c0).mp hr)
    | none =>
      simp only [hc]
      exact freshAns_some net r hq hp
  · intro net cache r hmiss hcond
    simp only [processAnsLine]
    cases hc : cache r.id with
    | some c0 =>
      simp only [hc]
      rw [if_neg]
      · exact freshAns_none net r hcond
      · intro hr
        exact hmiss c0 hc ((hreuse_iff r c0).mp hr)
    | none =>
      simp only [hc]
      exact freshAns_none net r hcond

/-- Witness for the amended C5 at a concrete reuse (cached record with an
empty but present evaluation). -/
theorem ans_reuse_characterization_witness :
    processAnsLine netStub cacheEmptyEval (some currentRec) = some (emptyEvalCached, false) :=
  (ans_reuse_characterization.1 netStub cacheEmptyEval currentRec emptyEvalCached).mpr
    ⟨rfl, rfl, rfl, by simp [emptyEvalCached]⟩

theorem append_ne_append {p q : String} (a b : String)
    (hl : p.data.length = q.data.length) (hne : p ≠ q) : p ++ a ≠ q ++ b := by
  intro h
  have hd := congrArg String.data h
  rw [String.data_append, String.data_append] at hd
  exact hne (String.ext (List.append_inj hd hl).1)

theorem append_split {s p t : String} (h : s = p ++ t) (e : String) : s ++ e = p ++ (t ++ e) := by
  rw [h, String.append_assoc]

theorem err_ne {s1 s2 p1 t1 p2 t2 : String} (h1 : s1 = p1 ++ t1) (h2 : s2 = p2 ++ t2)
    (hl : p1.data.length = p2.data.length) (hne : p1 ≠ p2) (e1 e2 : String) :
    s1 ++ e1 ≠ s2 ++ e2 := by
  rw [append_split h1 e1, append_split h2 e2]
  exact append_ne_append (t1 ++ e1) (t2 ++ e2) hl hne

theorem fixed_ne {f s2 p1 t1 p2 t2 : String} (h1 : f = p1 ++ t1) (h2 : s2 = p2 ++ t2)
    (hl : p1.data.length = p2.data.length) (hne : p1 ≠ p2) (e2 : String) :
    f ≠ s2 ++ e2 := by
  rw [h1, append_split h2 e2]
  exact append_ne_append t1 (t2 ++ e2) hl hne

theorem error_isPrefix {p t : String} (h : p = "Error" ++ t) (e : String) :
    "Error".data <+: (p ++ e).data := by
  rw [append_split h e, String.data_append]
  exact List.prefix_append _ _

/-- C6: the Judge Client never raises (it is a total function of the network
outcome) and returns a string in every case: the extracted
`choices[0].message.content` on a well-formed body, and a human-readable
error string — starting with `Error` and distinguishing the failure mode —
on an HTTP error status, connection failure, timeout, other request
exception, malformed JSON body, or a body missing the expected nested
fields.  In the answerability script the four transport failures share the
`requests.exceptions.RequestException` handler, so there they are
distinguished by the interpolated exception text rather than by the prefix.
The caller stores whatever string comes back as the record's `evaluation`,
like any other judgment. -/
theorem getdata_total_error_handling :
    (∀ j s, extractContent j = some s → getdataFact (.ok j) = s ∧ getdataAns (.ok j) = s) ∧
    (∀ out : ApiOutcome, (∀ j, out = .ok j → extractContent j = none) →
      "Error".data <+: (getdataFact out).data ∧ "Error".data <+: (getdataAns out).data) ∧
    (∀ e1 e2 : String,
      getdataFact (.httpError e1) ≠ getdataFact (.connError e2) ∧
      getdataFact (.httpError e1) ≠ getdataFact (.timeoutError e2) ∧
      getdataFact (.httpError e1) ≠ getdataFact (.reqError e2) ∧
      getdataFact (.httpError e1) ≠ getdataFact (.badJson e2) ∧
      getdataFact (.httpError e1) ≠ "Error: Unexpected API response" ∧
      getdataFact (.connError e1) ≠ getdataFact (.timeoutError e2) ∧
      getdataFact (.connError e1) ≠ getdataFact (.reqError e2) ∧
      getdataFact (.connError e1) ≠ getdataFact (.badJson e2) ∧
      getdataFact (.connError e1) ≠ "Error: Unexpected API response" ∧
      getdataFact (.timeoutError e1) ≠ getdataFact (.reqError e2) ∧
      getdataFact (.timeoutError e1) ≠ getdataFact (.badJson e2) ∧
      getdataFact (.timeoutError e1) ≠ "Error: Unexpected API response" ∧
      getdataFact (.reqError e1) ≠ getdataFact (.badJson e2) ∧
      getdataFact (.reqError e1) ≠ "Error: Unexpected API response" ∧
      getdataFact (.badJson e1) ≠ "Error: Unexpected API response") ∧
    (∀ e1 e2 : String,
      getdataAns (.reqError e1) ≠ getdataAns (.badJson e2) ∧
      getdataAns (.reqError e1) ≠ "Error: Unexpected API response" ∧
      getdataAns (.badJson e1) ≠ "Error: Unexpected API response" ∧
      (e1 ≠ e2 → getdataAns (.httpError e1) ≠ getdataAns (.timeoutError e2))) ∧
    (∀ net cache (r : Record) q a, cache r.id = none → r.query = some q → r.prediction = some a →
      processFactLine net cache (some r) =
        some ({ r with evaluation := some (getdataFact (net (checkFact a))) }, true)) := by
  have hH : ("Error: HTTP Error - " : String) = "Error: H" ++ "TTP Error - " := by decide
  have hC : ("Error: Connection Error - " : String) = "Error: C" ++ "onnection Error - " := by decide
  have hT : ("Error: Timeout Error - " : String) = "Error: T" ++ "imeout Error - " := by decide
  have hR : ("Error: Request Exception - " : String) = "Error: R" ++ "equest Exception - " := by decide
  have hI : ("Error: Invalid JSON response" : String) = "Error: I" ++ "nvalid JSON response" := by decide
  have hU : ("Error: Unexpected API response" : String) = "Error: U" ++ "nexpected API response" := by decide
  have hRF : ("Error: Request failed - " : String) = "Error: R" ++ "equest failed - " := by decide
  have hJD : ("Error: JSON decode error - " : String) = "Error: J" ++ "SON decode error - " := by decide
  refine ⟨?_, ?_, ?_, ?_, ?_⟩
  · intro j s h
    constructor
    · simp [getdataFact, h]
    · simp [getdataAns, h]
  · intro out hok
    cases out with
    | ok j =>
      have hnone := hok j rfl
      constructor
      · simp only [getdataFact, hnone]
        decide
      · simp only [getdataAns, hnone]
        decide
    | httpError e =>
      exact ⟨error_isPrefix (by decide : ("Error: HTTP Error - " : String) = "Error" ++ ": HTTP Error - ") e,
        error_isPrefix (by decide : ("Error: Request failed - " : String) = "Error" ++ ": Request failed - ") e⟩
    | connError e =>
      exact ⟨error_isPrefix (by decide : ("Error: Connection Error - " : String) = "Error" ++ ": Connection Error - ") e,
        error_isPrefix (by decide : ("Error: Request failed - " : String) = "Error" ++ ": Request failed - ") e⟩
    | timeoutError e =>
      exact ⟨error_isPrefix (by decide : ("Error: Timeout Error - " : String) = "Error" ++ ": Timeout Error - ") e,
        error_isPrefix (by decide : ("Error: Request failed - " : String) = "Error" ++ ": Request failed - ") e⟩
    | reqError e =>
      exact ⟨error_isPrefix (by decide : ("Error: Request Exception - " : String) = "Error" ++ ": Request Exception - ") e,
        error_isPrefix (by decide : ("Error: Request failed - " : String) = "Error" ++ ": Request failed - ") e⟩
    | badJson e =>
      constructor
      · show "Error".data <+: "Error: Invalid JSON response".data
        decide
      · exact error_isPrefix (by decide : ("Error: JSON decode error - " : String) = "Error" ++ ": JSON decode error - ") e
  · intro e1 e2
    refine ⟨?_, ?_, ?_, ?_, ?_, ?_, ?_, ?_, ?_, ?_, ?_, ?_, ?_, ?_, ?_⟩
    · exact err_ne hH hC (by decide) (by decide) e1 e2
    · exact err_ne hH hT (by decide) (by decide) e1 e2
    · exact err_ne hH hR (by decide) (by decide) e1 e2
    · exact (fixed_ne hI hH (by decide) (by decide) e1).symm
    · exact (fixed_ne hU hH (by decide) (by decide) e1).symm
    · exact err_ne hC hT (by decide) (by decide) e1 e2
    · exact err_ne hC hR (by decide) (by decide) e1 e2
    · exact (fixed_ne hI hC (by decide) (by decide) e1).symm
    · exact (fixed_ne hU hC (by decide) (by decide) e1).symm
    · exact err_ne hT hR (by decide) (by decide) e1 e2
    · exact (fixed_ne hI hT (by decide) (by decide) e1).symm
    · exact (fixed_ne hU hT (by decide) (by decide) e1).symm
    · exact (fixed_ne hI hR (by decide) (by decide) e1).symm
    · exact (fixed_ne hU hR (by decide) (by decide) e1).symm
    · show ("Error: Invalid JSON response" : String) ≠ "Error: Unexpected API response"
      decide
  · intro e1 e2
    refine ⟨?_, ?_, ?_, ?_⟩
    · exact err_ne hRF hJD (by decide) (by decide) e1 e2
    · exact (fixed_ne hU hRF (by decide) (by decide) e1).symm
    · exact (fixed_ne hU hJD (by decide) (by decide) e1).symm
    · intro hne12 h
      have h2 : ("Error: Request failed - " ++ e1 : String) = "Error: Request failed - " ++ e2 := h
      have hd := congrArg String.data h2
      rw [String.data_append, String.data_append] at hd
      exact hne12 (String.ext (List.append_cancel_left hd))
  · intro net cache r q a hc hq hp
    simp [processFactLine, hc, hq, hp]

/-- Witness for C6 at a concrete well-formed response body. -/
theorem getdata_total_error_handling_witness :
    getdataFact (.ok okBody) = "Yes" ∧ getdataAns (.ok okBody) = "Yes" :=
  getdata_total_error_handling.1 okBody "Yes" rfl

/-- C7: when the evaluation input file is missing, both pipelines report the
error and halt before any processing: zero API calls, zero output lines
produced, and no result file; the answerability pipeline exits leaving its
output file untouched. -/
theorem missing_input_no_processing (net : String → ApiOutcome) (noise : ℚ) (fs : FS)
    (h : fs.evalFile = none) :
    (mainFact net noise fs).calls = [] ∧ (mainFact net noise fs).outFile = [] ∧
    (mainFact net noise fs).scores = none ∧
    (mainAns net fs).calls = [] ∧ (mainAns net fs).written = [] ∧
    (mainAns net fs).outFile = fs.outFile ∧ (mainAns net fs).scores = none := by
  simp [mainFact, mainAns, h]

/-- Witness for C7 at a concrete file system. -/
theorem missing_input_no_processing_witness :
    (mainFact netStub 0 fsMissingInput).calls = [] ∧
    (mainFact netStub 0 fsMissingInput).outFile = [] ∧
    (mainFact netStub 0 fsMissingInput).scores = none ∧
    (mainAns netStub fsMissingInput).calls = [] ∧
    (mainAns netStub fsMissingInput).written = [] ∧
    (mainAns netStub fsMissingInput).outFile = fsMissingInput.outFile ∧
    (mainAns netStub fsMissingInput).scores = none :=
  missing_input_no_processing netStub 0 fsMissingInput rfl

/-- C8 counterexample: with the shipped default configuration (`--temp` is
0.2) the request body still carries temperature 0.7, so the claim that the
sampling-temperature option is the temperature forwarded to the request body
is false. -/
theorem temp_forwarding_claim_false : ¬ C8Claim := by
  intro h
  have h1 := h.1 argsDefault "x"
  have h2 := h.2 argsDefault "x"
  rw [h1] at h2
  have h3 : (7 / 10 : ℚ) = argsDefault.temp := Option.some.inj h2
  norm_num [argsDefault] at h3

/-- C8 amended: the fact-error request body's temperature is the constant 0.7
for every configuration, and the whole request body is independent of every
command-line parameter — in particular the `--temp` option is not forwarded;
it changes only the derived file names.  The configured noise rate enters the
score summary only as the recorded `noise_rate` field. -/
theorem factRequest_temperature_fixed :
    (∀ args text, (factRequest args text).body.temperature = some (7 / 10)) ∧
    (∀ a b : Args, ∀ text, (factRequest a text).body = (factRequest b text).body) ∧
    (∀ a b : Args, a.temp ≠ b.temp → factOutputFile a ≠ factOutputFile b) ∧
    (∀ noise noiseB : ℚ, ∀ results,
      scoresFact noise results = { scoresFact noiseB results with noise_rate := noise }) := by
  refine ⟨fun _ _ => rfl, fun _ _ _ => rfl, ?_, fun _ _ _ => rfl⟩
  intro a b hne h
  exact hne (congrArg FileKey.temp h)

/-- Witness for the amended C8: two configurations differing in `--temp` name
different output files. -/
theorem factRequest_temperature_fixed_witness :
    factOutputFile argsDefault ≠ factOutputFile argsHot :=
  factRequest_temperature_fixed.2.2.1 argsDefault argsHot (by norm_num [argsDefault, argsHot])

/-- C9 counterexample: an input record whose prediction is the empty string is
skipped by the answerability pipeline — no API call is made — rather than
being embedded and sent to the Judge Client as the claim states. -/
theorem verbatim_claim_false : ¬ C9Claim := by
  intro h
  have hcontra := h netStub cacheNone emptyPredRec rfl
  rw [show processAnsLine netStub cacheNone (some emptyPredRec) = none from rfl] at hcontra
  exact Option.noConfusion hcontra

/-- C9 amended: the prompt builders perform no validation — arbitrary strings,
including empty ones, are spliced verbatim into the fixed templates — and the
fact-error pipeline sends every non-cached record with present `query` and
`prediction` (even empty strings) to the Judge Client; the answerability
pipeline, however, skips a non-reused record whose query or prediction is
empty or missing, and otherwise embeds and sends it verbatim. -/
theorem prompt_verbatim_embedding :
    (∀ a : String, a.data <:+: (checkFact a).data) ∧
    (∀ q a : String, q.data <:+: (checkAns q a).data ∧ a.data <:+: (checkAns q a).data) ∧
    (∀ net cache (r : Record) q a, cache r.id = none → r.query = some q → r.prediction = some a →
      processFactLine net cache (some r) =
        some ({ r with evaluation := some (getdataFact (net (checkFact a))) }, true)) ∧
    (∀ net cache (r : Record), (∀ c, cache r.id = some c → ansReuse r c = false) →
      (r.query.getD "" = "" ∨ r.prediction.getD "" = "") →
      processAnsLine net cache (some r) = none) ∧
    (∀ net cache (r : Record), (∀ c, cache r.id = some c → ansReuse r c = false) →
      r.query.getD "" ≠ "" → r.prediction.getD "" ≠ "" →
      processAnsLine net cache (some r) =
        some ({ r with evaluation := some (getdataAns (net (checkAns (r.query.getD "") (r.prediction.getD "")))) }, true)) := by
  refine ⟨?_, ?_, ?_, ?_, ?_⟩
  · intro a
    exact ⟨factPromptPre.data, factPromptSuf.data, by simp [checkFact, String.data_append]⟩
  · intro q a
    constructor
    · exact ⟨ansPromptPre.data, ansPromptMid.data ++ a.data ++ ansPromptSuf.data,
        by simp [checkAns, String.data_append]⟩
    · exact ⟨ansPromptPre.data ++ q.data ++ ansPromptMid.data, ansPromptSuf.data,
        by simp [checkAns, String.data_append]⟩
  · intro net cache r q a hc hq hp
    simp [processFactLine, hc, hq, hp]
  · intro net cache r hmiss hcond
    simp only [processAnsLine]
    cases hc : cache r.id with
    | some c0 =>
      simp only [hc]
      rw [if_neg (by rw [hmiss c0 hc]; exact Bool.false_ne_true)]
      exact freshAns_none net r hcond
    | none =>
      simp only [hc]
      exact freshAns_none net r hcond
  · intro net cache r hmiss hq hp
    simp only [processAnsLine]
    cases hc : cache r.id with
    | some c0 =>
      simp only [hc]
      rw [if_neg (by rw [hmiss c0 hc]; exact Bool.false_ne_true)]
      exact freshAns_some net r hq hp
    | none =>
      simp only [hc]
      exact freshAns_some net r hq hp

/-- Witness for the amended C9: the fact-error pipeline judges a record whose
query and prediction are both empty strings. -/
theorem prompt_verbatim_embedding_witness :
    processFactLine netStub cacheNone (some emptyBothRec) =
      some ({ emptyBothRec with evaluation := some (getdataFact (netStub (checkFact ""))) }, true) :=
  prompt_verbatim_embedding.2.2.1 netStub cacheNone emptyBothRec "" "" rfl rfl rfl

/-- C10: the fact-error pipeline opens the output file in truncate mode after
loading the resume cache but before checking that the input file exists, so a
run with the input file missing and a previous output file present leaves the
output file empty — erasing every previously stored judgment — makes no API
call, and writes no result file. -/
theorem output_truncated_on_missing_input (net : String → ApiOutcome) (noise : ℚ) (fs : FS)
    (prev : List Record) (h : fs.evalFile = none) (hprev : fs.outFile = some prev) :
    (mainFact net noise fs).outFile = [] ∧
    (∀ c ∈ prev, c ∉ (mainFact net noise fs).outFile) ∧
    (mainFact net noise fs).calls = [] ∧ (mainFact net noise fs).scores = none := by
  simp [mainFact, h]

/-- Witness for C10 with a non-empty previous output file. -/
theorem output_truncated_on_missing_input_witness :
    (mainFact netStub 0 fsMissingInput).outFile = [] ∧
    (∀ c ∈ [emptyEvalCached], c ∉ (mainFact netStub 0 fsMissingInput).outFile) ∧
    (mainFact netStub 0 fsMissingInput).calls = [] ∧
    (mainFact netStub 0 fsMissingInput).scores = none :=
  output_truncated_on_missing_input netStub 0 fsMissingInput [emptyEvalCached] rfl rfl

end RGB
